import Mathlib

/-!
Shallow embedding of the `spot_minimal_driver` repository: the Spot ROS 2
driver node (`src/spot_minimal_driver/spot_minimal_driver.py`) and the
navigation-goal listener
(`src/nav_goal_listener/nav_goal_listener/nav_goal_listener.py`).

The SDK and middleware (bosdyn client, rclpy, tf2) are external
collaborators: their calls are modelled as environment inputs (success or
failure of each RPC, records yielded by the streaming channel, result of a
transform lookup).  The driver code itself — the ordering of the startup
steps, the exception handling, the field updates, the callbacks — is
translated statement by statement.
-/

namespace SpotMinimalDriver

/- ## Startup sequence: `SpotROS2Driver.__init__` (lines 44-119) and `main`
(lines 192-210). -/

/-- The four exclusive robot resources the lifecycle manager acquires. -/
inductive Resource
  | session | lease | estop | power
  deriving DecidableEq, Repr

/-- The startup steps of `__init__`, in source order: `create_robot` +
`authenticate` (lines 68-69), `time_sync.wait_for_sync` (line 70),
`assert not is_estopped` (line 73), `LeaseKeepAlive` (line 87),
`EstopEndpoint.force_simple_setup` + `EstopKeepAlive` (lines 91-93),
`power_on` + `assert is_powered_on` (lines 99-100), `blocking_stand`
(line 103). -/
inductive Step
  | connectAuth | timeSync | estopCheck | acquireLease | registerEstop
  | powerOn | stand
  deriving DecidableEq, Repr

/-- Environment: which SDK calls of the startup sequence succeed.
`externallyEstopped` is the value returned by `robot.is_estopped()`. -/
structure StartupEnv where
  authOk : Bool
  timeSyncOk : Bool
  externallyEstopped : Bool
  leaseOk : Bool
  estopOk : Bool
  powerOnOk : Bool
  standOk : Bool
  deriving DecidableEq, Repr

/-- The exception surfaced by a failing startup step (`RpcError`,
`ResponseError`, `LeaseError`, or the `AssertionError` of lines 73 and
100). -/
inductive InitError
  | connectAuthFailed | timeSyncFailed | alreadyEstopped | leaseFailed
  | estopFailed | powerOnFailed | standFailed
  deriving DecidableEq, Repr

/-- Observable outcome of running `__init__`: the steps that were executed,
the resources acquired, the releases performed inside `__init__` before the
exception left it, the exception (if any), and whether the background
state-streaming thread (line 116) and the `cmd_vel` subscription (line 112)
were started. -/
structure InitResult where
  stepsRun : List Step
  acquired : List Resource
  released : List Resource
  error : Option InitError
  readerStarted : Bool
  dispatcherStarted : Bool
  deriving DecidableEq, Repr

/-- `SpotROS2Driver.__init__`, lines 61-119.  The `except` clause (lines
106-108) logs the error and re-raises: it releases nothing, so `released`
is `[]` on every path.  Each step runs only if every earlier statement
completed without raising. -/
def spotInit (env : StartupEnv) : InitResult :=
  if !env.authOk then
    ⟨[.connectAuth], [], [], some .connectAuthFailed, false, false⟩
  else if !env.timeSyncOk then
    ⟨[.connectAuth, .timeSync], [.session], [], some .timeSyncFailed,
      false, false⟩
  else if env.externallyEstopped then
    ⟨[.connectAuth, .timeSync, .estopCheck], [.session], [],
      some .alreadyEstopped, false, false⟩
  else if !env.leaseOk then
    ⟨[.connectAuth, .timeSync, .estopCheck, .acquireLease], [.session], [],
      some .leaseFailed, false, false⟩
  else if !env.estopOk then
    ⟨[.connectAuth, .timeSync, .estopCheck, .acquireLease, .registerEstop],
      [.session, .lease], [], some .estopFailed, false, false⟩
  else if !env.powerOnOk then
    ⟨[.connectAuth, .timeSync, .estopCheck, .acquireLease, .registerEstop,
        .powerOn],
      [.session, .lease, .estop], [], some .powerOnFailed, false, false⟩
  else if !env.standOk then
    ⟨[.connectAuth, .timeSync, .estopCheck, .acquireLease, .registerEstop,
        .powerOn, .stand],
      [.session, .lease, .estop, .power], [], some .standFailed,
      false, false⟩
  else
    ⟨[.connectAuth, .timeSync, .estopCheck, .acquireLease, .registerEstop,
        .powerOn, .stand],
      [.session, .lease, .estop, .power], [], none, true, true⟩

/-- `main`, lines 192-210: `spot_driver_node` starts as `None` and the
`finally` clause calls `shutdown()` only when it is non-`None`.  When the
constructor raises, the assignment on line 198 never completes, so the
reference is still `None` and `shutdown` is never called. -/
def mainShutdownCalled (env : StartupEnv) : Bool :=
  (spotInit env).error.isNone

/-- The fixed source order of the startup steps. -/
def stepOrder : List Step :=
  [.connectAuth, .timeSync, .estopCheck, .acquireLease, .registerEstop,
    .powerOn, .stand]

/-- Whether the SDK call behind a given step succeeds in a given
environment. -/
def stepOk (env : StartupEnv) : Step → Bool
  | .connectAuth => env.authOk
  | .timeSync => env.timeSyncOk
  | .estopCheck => !env.externallyEstopped
  | .acquireLease => env.leaseOk
  | .registerEstop => env.estopOk
  | .powerOn => env.powerOnOk
  | .stand => env.standOk

/-- The steps the spec says are executed (stated from the spec wording, for
comparison with `spotInit`): the steps run in the fixed order and a step is
executed only if every previous step succeeded, so the executed steps are
the ordered steps up to and including the first failing one. -/
def specStepsRun (env : StartupEnv) : List Step :=
  stepOrder.take
    (match stepOrder.findIdx? (fun s => !(stepOk env s)) with
      | none => stepOrder.length
      | some i => i + 1)

/-- The lease-then-E-Stop-fails injection point: authentication, time sync,
the external-E-Stop check and the lease acquisition succeed and the E-Stop
registration fails. -/
def envEstopFail : StartupEnv :=
  ⟨true, true, false, true, false, true, true⟩

/-- C1: when the E-Stop registration step fails after the session and the
lease have been acquired, `__init__` (lines 106-108) re-raises without
releasing anything, and `main`'s `finally` clause never calls `shutdown`
because the node reference was never assigned — so the session and the
lease keep-alive leak, contradicting the claim that every resource acquired
before the failing step is released exactly once before the error is
surfaced. -/
theorem C1_startup_failure_leaks_resources :
    (spotInit envEstopFail).acquired = [.session, .lease] ∧
    (spotInit envEstopFail).error = some .estopFailed ∧
    (spotInit envEstopFail).released = [] ∧
    mainShutdownCalled envEstopFail = false := by
  decide

/-- C7: the startup steps run in the fixed source order, each step executed
only if every previous step succeeded (the executed steps equal the ordered
steps up to and including the first failing one), and the streaming reader
and the command dispatcher are started exactly when every step
succeeded. -/
theorem C7_startup_order (env : StartupEnv) :
    (spotInit env).stepsRun = specStepsRun env ∧
    ((spotInit env).readerStarted = stepOrder.all (stepOk env)) ∧
    (spotInit env).dispatcherStarted = (spotInit env).readerStarted := by
  obtain ⟨a, b, c, d, e, f, g⟩ := env
  revert a b c d e f g
  decide

/- ## Teardown: `SpotROS2Driver.shutdown` (lines 175-189). -/

/-- The node fields `shutdown` tests: whether `self.robot`,
`self.estop_keep_alive` and `self.lease_keep_alive` are non-`None`
(lines 55-57 initialise all three to `None`; `shutdown` never resets
them). -/
structure NodeFields where
  robotSet : Bool
  estopKeepAliveSet : Bool
  leaseKeepAliveSet : Bool
  deriving DecidableEq, Repr

/-- The robot-side state `shutdown` interacts with: the value
`robot.is_powered_on()` returns, and whether the `robot.power_off` RPC
raises (`RpcError`, e.g. the robot is unreachable).  The keep-alive
`shutdown()` methods only stop local refresh threads and do not raise. -/
structure RobotWorld where
  poweredOn : Bool
  powerOffFails : Bool
  deriving DecidableEq, Repr

/-- The release attempts `shutdown` can make, in source order. -/
inductive TeardownEvent
  | powerOff | estopRelease | leaseRelease
  deriving DecidableEq, Repr

/-- Outcome of one `shutdown` call: the release attempts made, whether an
exception escaped the call, and the robot-side state afterwards.  The node
fields are unchanged by the call (the code never clears them). -/
structure ShutdownResult where
  events : List TeardownEvent
  raised : Bool
  world : RobotWorld
  deriving DecidableEq, Repr

/-- `SpotROS2Driver.shutdown`, lines 175-189, translated line by line:
`if self.robot and self.robot.is_powered_on(): self.robot.power_off(...)`
— the call is not wrapped in any `try`, so if `power_off` raises the
exception propagates and the two remaining `if` blocks never run;
otherwise `if self.estop_keep_alive: ...shutdown()` and
`if self.lease_keep_alive: ...shutdown()` run unconditionally. -/
def shutdown (f : NodeFields) (w : RobotWorld) : ShutdownResult :=
  if f.robotSet && w.poweredOn then
    if w.powerOffFails then
      ⟨[.powerOff], true, w⟩
    else
      ⟨[.powerOff]
          ++ (if f.estopKeepAliveSet then [.estopRelease] else [])
          ++ (if f.leaseKeepAliveSet then [.leaseRelease] else []),
        false, ⟨false, w.powerOffFails⟩⟩
  else
    ⟨(if f.estopKeepAliveSet then [.estopRelease] else [])
        ++ (if f.leaseKeepAliveSet then [.leaseRelease] else []),
      false, w⟩

/-- C3 counterexample: with all three resources held and the robot powered
on, a failing `power_off` RPC makes `shutdown` raise, and the E-Stop and
lease release attempts are never made — the power-off failure is neither
logged-and-swallowed nor followed by the remaining releases. -/
theorem C3_counterexample :
    (shutdown ⟨true, true, true⟩ ⟨true, true⟩).raised = true ∧
    (shutdown ⟨true, true, true⟩ ⟨true, true⟩).events =
      [.powerOff] := by
  decide

/-- C3 amended: when the power-off step is attempted and fails, the
exception propagates out of `shutdown` and the E-Stop and lease release
attempts are skipped; on every other path no exception escapes and the
release attempts made are exactly, in this order: power-off when the robot
field is set and the robot reports powered on, then the E-Stop release
when that keep-alive field is set, then the lease release when that
keep-alive field is set. -/
theorem C3_shutdown_short_circuits_on_power_off_failure
    (f : NodeFields) (w : RobotWorld) :
    if f.robotSet && w.poweredOn && w.powerOffFails then
      (shutdown f w).raised = true ∧
      (shutdown f w).events = [TeardownEvent.powerOff]
    else
      (shutdown f w).raised = false ∧
      (shutdown f w).events =
        (if f.robotSet && w.poweredOn then [TeardownEvent.powerOff]
          else [])
          ++ (if f.estopKeepAliveSet then [TeardownEvent.estopRelease]
              else [])
          ++ (if f.leaseKeepAliveSet then [TeardownEvent.leaseRelease]
              else []) := by
  obtain ⟨a, b, c⟩ := f
  obtain ⟨d, e⟩ := w
  revert a b c d e
  decide

/-- C5 counterexample: after a successful `shutdown` (all three resources
held, robot powered on, power-off succeeds), a second `shutdown` call
re-invokes `estop_keep_alive.shutdown()` and `lease_keep_alive.shutdown()`,
because the fields are never cleared — the E-Stop and lease keep-alives are
released a second time, contradicting the claim that a second call releases
no resource again. -/
theorem C5_counterexample :
    (shutdown ⟨true, true, true⟩
        ((shutdown ⟨true, true, true⟩ ⟨true, false⟩).world)).events =
      [.estopRelease, .leaseRelease] := by
  decide

/-- C5 amended: calling `shutdown` when startup never completed (all fields
still `None`) releases nothing and does not raise, and a second call after
a successful first call does not raise and does not re-attempt power-off
(the robot then reports powered off) — but it does re-invoke the E-Stop and
lease keep-alive `shutdown()` methods whenever those fields are set. -/
theorem C5_shutdown_second_call (f : NodeFields) (w : RobotWorld)
    (h : (shutdown f w).raised = false) :
    (shutdown ⟨false, false, false⟩ w).events = [] ∧
    (shutdown ⟨false, false, false⟩ w).raised = false ∧
    (shutdown f (shutdown f w).world).raised = false ∧
    TeardownEvent.powerOff ∉ (shutdown f (shutdown f w).world).events ∧
    (shutdown f (shutdown f w).world).events =
      (if f.estopKeepAliveSet then [TeardownEvent.estopRelease] else [])
        ++ (if f.leaseKeepAliveSet then [TeardownEvent.leaseRelease]
            else []) := by
  obtain ⟨a, b, c⟩ := f
  obtain ⟨d, e⟩ := w
  revert a b c d e
  decide

/-- Witness for `C5_shutdown_second_call` at a concrete successful first
call. -/
theorem C5_shutdown_second_call_witness :
    (shutdown ⟨false, false, false⟩ ⟨true, false⟩).events = [] ∧
    (shutdown ⟨false, false, false⟩ ⟨true, false⟩).raised = false ∧
    (shutdown ⟨true, true, true⟩
        ((shutdown ⟨true, true, true⟩ ⟨true, false⟩).world)).raised
      = false ∧
    TeardownEvent.powerOff ∉
      (shutdown ⟨true, true, true⟩
        ((shutdown ⟨true, true, true⟩ ⟨true, false⟩).world)).events ∧
    (shutdown ⟨true, true, true⟩
        ((shutdown ⟨true, true, true⟩ ⟨true, false⟩).world)).events =
      (if (true : Bool) then [TeardownEvent.estopRelease] else [])
        ++ (if (true : Bool) then [TeardownEvent.leaseRelease] else []) :=
  C5_shutdown_second_call ⟨true, true, true⟩ ⟨true, false⟩ (by decide)

/- ## Command dispatcher: `SpotROS2Driver.cmd_vel_callback`
(lines 161-173). -/

/-- The fields of the incoming `Twist` message that the callback reads:
`msg.linear.x`, `msg.linear.y`, `msg.angular.z` (line 163).  Rates are
modelled as rationals. -/
structure Twist where
  linX : ℚ
  linY : ℚ
  angZ : ℚ
  deriving DecidableEq

/-- A motion command forwarded to the Session by
`command_client.robot_command(command, end_time_secs=end_time)`:
`RobotCommandBuilder.synchro_velocity_command(v_x, v_y, v_rot)` plus the
end time computed on line 166. -/
structure MotionCommand where
  vX : ℚ
  vY : ℚ
  vRot : ℚ
  endTime : ℚ
  deriving DecidableEq

/-- Robot-side preconditions for a motion command, as the spec states them:
the Lease is held and the power state is On. -/
structure CmdEnv where
  leaseHeld : Bool
  powerOn : Bool
  deriving DecidableEq, Repr

/-- Log records `cmd_vel_callback` can emit: the debug line of line 171 on
success, the error line of line 173 when `robot_command` raises. -/
inductive CmdLog
  | debugSent | errorFailed
  deriving DecidableEq, Repr

/-- Outcome of one `cmd_vel_callback` invocation: the commands forwarded to
the Session (each `robot_command` call made), the log records, and whether
an exception escaped the callback. -/
structure CmdResult where
  sent : List MotionCommand
  logs : List CmdLog
  raised : Bool
  deriving DecidableEq

/-- Whether the Session accepts the `robot_command` RPC (external SDK,
modelled from the spec invariant: the call fails unless the Lease is held
and the power state is On). -/
def sessionAccepts (env : CmdEnv) : Bool :=
  env.leaseHeld && env.powerOn

/-- `SpotROS2Driver.cmd_vel_callback`, lines 161-173.  The callback
performs no lease or power check of its own: it always builds the command,
computes `end_time = time.time() + 0.5`, and calls
`command_client.robot_command` — so the command is always forwarded to the
Session.  A `RpcError`/`ResponseError` from the call is caught and logged
as an error (lines 172-173); nothing is retried and nothing escapes. -/
def cmd_vel_callback (msg : Twist) (now : ℚ) (env : CmdEnv) : CmdResult :=
  let command : MotionCommand :=
    ⟨msg.linX, msg.linY, msg.angZ, now + 1/2⟩
  { sent := [command]
    logs := if sessionAccepts env then [.debugSent] else [.errorFailed]
    raised := false }

/-- C2 counterexample: with the lease held but the power state Off, the
intent (v_x = 0.3, v_y = 0, v_rot = 0.1) is still forwarded to the Session
— the callback checks no precondition, contradicting the claim that
nothing is forwarded to the Session when the precondition is not met. -/
theorem C2_counterexample :
    (cmd_vel_callback ⟨3/10, 0, 1/10⟩ 100 ⟨true, false⟩).sent =
      [⟨3/10, 0, 1/10, 100 + 1/2⟩] ∧
    sessionAccepts ⟨true, false⟩ = false := by
  constructor
  · rfl
  · decide

/-- C2 amended: the callback checks no precondition and always forwards
exactly one motion command to the Session; when the Lease is not held or
the power state is not On the Session call fails, the failure is logged as
an error (never a silent no-op), the command is dropped without retry, and
the callback returns normally. -/
theorem C2_command_always_forwarded (msg : Twist) (now : ℚ)
    (env : CmdEnv) :
    (cmd_vel_callback msg now env).sent =
      [⟨msg.linX, msg.linY, msg.angZ, now + 1/2⟩] ∧
    (cmd_vel_callback msg now env).raised = false ∧
    (cmd_vel_callback msg now env).logs =
      (if sessionAccepts env then [CmdLog.debugSent]
        else [CmdLog.errorFailed]) := by
  refine ⟨rfl, rfl, rfl⟩

/-- C6: after a successful startup (lease held, power on), every velocity
intent produces exactly one motion command forwarded to the Session,
carrying the intent rates unchanged and an end time equal to the issue time
plus 0.5 seconds. -/
theorem C6_velocity_command_passthrough (msg : Twist) (now : ℚ) :
    (cmd_vel_callback msg now ⟨true, true⟩).sent =
      [⟨msg.linX, msg.linY, msg.angZ, now + 1/2⟩] ∧
    (cmd_vel_callback msg now ⟨true, true⟩).logs = [CmdLog.debugSent] := by
  refine ⟨rfl, rfl⟩

/- ## State streaming reader: `SpotROS2Driver._state_streaming_thread`
(lines 121-129). -/

/-- What the streaming channel
(`robot_state_streaming_client.get_robot_state_stream()`) yields next:
a telemetry record (identified by a `Nat`), a transient read failure, or an
unrecoverable transport failure.  Both failures surface as Python
exceptions raised by the iterator. -/
inductive ReadEvent
  | record (s : Nat)
  | transientFailure
  | fatalFailure
  deriving DecidableEq, Repr

/-- Observable outcome of the streaming-thread body: the records written
to the single-slot cache (in order) and the number of error log records
emitted. -/
structure StreamRun where
  writes : List Nat
  errorsLogged : Nat
  deriving DecidableEq, Repr

/-- `_state_streaming_thread`, lines 121-129: the `try` wraps the whole
`for` loop, so the first exception of any kind — transient or fatal —
leaves the loop, is logged once by the `except` clause (line 129), and the
thread body returns.  Records before the first failure are each written to
the cache under the lock. -/
def state_streaming_thread : List ReadEvent → StreamRun
  | [] => ⟨[], 0⟩
  | .record s :: rest =>
      let r := state_streaming_thread rest
      ⟨s :: r.writes, r.errorsLogged⟩
  | .transientFailure :: _ => ⟨[], 1⟩
  | .fatalFailure :: _ => ⟨[], 1⟩

/-- C4 counterexample: the stream yields record 1, then a transient read
failure, then record 2.  The code writes only record 1 and stops — record
2 is never read, contradicting the claim that the loop continues reading
further telemetry records after a transient failure. -/
theorem C4_counterexample :
    (state_streaming_thread
        [.record 1, .transientFailure, .record 2]).writes = [1] ∧
    (state_streaming_thread
        [.record 1, .transientFailure, .record 2]).errorsLogged = 1 := by
  decide

/-- C4 amended: any read failure in the pull loop — transient or fatal —
is logged exactly once and terminates the loop: the records before the
failure are written, and nothing after the failure is ever read.  Both
failure kinds are covered. -/
theorem C4_any_failure_terminates_loop (pre : List Nat)
    (post : List ReadEvent) :
    state_streaming_thread
        (pre.map ReadEvent.record ++ ReadEvent.transientFailure :: post) =
      ⟨pre, 1⟩ ∧
    state_streaming_thread
        (pre.map ReadEvent.record ++ ReadEvent.fatalFailure :: post) =
      ⟨pre, 1⟩ := by
  induction pre with
  | nil => exact ⟨rfl, rfl⟩
  | cons s rest ih =>
      refine ⟨?_, ?_⟩ <;>
        simp only [List.map_cons, List.cons_append, state_streaming_thread,
          List.append_eq, ih.1, ih.2]

/- ## The single-slot cache `self._latest_state` and the periodic
publisher `timer_callback` (lines 52-53, 124-127, 131-142). -/

/-- Initial value of the cache: `self._latest_state = None` (line 52). -/
def initialLatestState : Option Nat :=
  none

/-- One write by the streaming reader under the lock:
`self._latest_state = robot_state` (line 127).  The slot is a plain
assignment — the previous value is discarded. -/
def writeLatestState (s : Nat) (_cache : Option Nat) : Option Nat :=
  some s

/-- The read performed by `timer_callback` under the lock:
`robot_state = self._latest_state` (line 134). -/
def readLatestState (cache : Option Nat) : Option Nat :=
  cache

/-- `timer_callback`, lines 131-139: copies the slot under the lock; if the
copy is falsy (`None` initially) it publishes nothing and returns, else it
computes `get_a_tform_b(...)` and publishes one transform.  The frame
lookup and `TransformStamped` marshalling (lines 137-159) are external
collaborators, abstracted to the record itself, so the result is the list
of transforms published in this invocation. -/
def timer_callback : Option Nat → List Nat
  | none => []
  | some s => [s]

/-- C8: the cache is last-write-wins — after the streaming reader writes
the record of t0 and then the record of t1 with no intervening read, a
read observes the t1 record and never the t0 record; and the slot retains
no history: the state after a write is independent of the previous cache
contents. -/
theorem C8_last_write_wins (c : Option Nat) (t0rec t1rec : Nat)
    (h : t0rec ≠ t1rec) :
    readLatestState (writeLatestState t1rec (writeLatestState t0rec c)) =
      some t1rec ∧
    readLatestState (writeLatestState t1rec (writeLatestState t0rec c)) ≠
      some t0rec ∧
    (∀ c2 : Option Nat, writeLatestState t1rec c = writeLatestState t1rec c2) := by
  refine ⟨rfl, ?_, fun c2 => rfl⟩
  intro hc
  exact h (Option.some.inj hc).symm

/-- Witness for `C8_last_write_wins` at records 0 and 1. -/
theorem C8_last_write_wins_witness :
    readLatestState (writeLatestState 1 (writeLatestState 0 initialLatestState)) =
      some 1 ∧
    readLatestState (writeLatestState 1 (writeLatestState 0 initialLatestState)) ≠
      some 0 ∧
    (∀ c2 : Option Nat,
      writeLatestState 1 initialLatestState = writeLatestState 1 c2) :=
  C8_last_write_wins initialLatestState 0 1 (by decide)

/-- C10: before the streaming reader has written anything the slot still
holds its initial `None`, and `timer_callback` publishes no transform and
returns normally (the model is a total function; the `if robot_state:`
guard on line 136 skips the publish branch entirely). -/
theorem C10_no_publish_before_first_write :
    timer_callback initialLatestState = [] ∧
    timer_callback (readLatestState initialLatestState) = [] := by
  exact ⟨rfl, rfl⟩

end SpotMinimalDriver

namespace NavGoalListenerNode

/- ## `NavGoalListener.goal_callback`
(`src/nav_goal_listener/nav_goal_listener/nav_goal_listener.py`,
lines 25-54). -/

/-- The action goal built from the transformed pose: `goal_msg.x`,
`goal_msg.y`, `goal_msg.yaw` (lines 44-50).  The transform lookup,
`do_transform_pose` and `euler_from_quaternion` are external collaborators
(tf2 / tf_transformations); the environment supplies their combined
result. -/
structure MoveGoal where
  x : ℚ
  y : ℚ
  yaw : ℚ
  deriving DecidableEq

/-- Log records `goal_callback` can emit, in the order the source emits
them: the info line of line 26, the transform-error warning of line 37,
the server-unavailable warning of line 41, the transformed-goal info of
line 52. -/
inductive NavLog
  | infoReceived | warnTransformError | warnServerUnavailable
  | infoTransformed
  deriving DecidableEq, Repr

/-- Outcome of one `goal_callback` invocation: the action goals sent via
`send_goal_async`, the log records, and whether an exception escaped the
callback. -/
structure NavResult where
  sentGoals : List MoveGoal
  logs : List NavLog
  raised : Bool
  deriving DecidableEq

/-- `goal_callback`, lines 25-54.  `transformed` is the combined result of
`lookup_transform` + `do_transform_pose` + `euler_from_quaternion`: `none`
models the lookup or transform raising (the `except Exception` clause of
lines 36-38 logs a warning and returns).  `serverAvailable` is the result
of `wait_for_server` (lines 40-42).  Only when both succeed is exactly one
goal sent. -/
def goal_callback (transformed : Option MoveGoal)
    (serverAvailable : Bool) : NavResult :=
  match transformed with
  | none => ⟨[], [.infoReceived, .warnTransformError], false⟩
  | some g =>
      if serverAvailable then
        ⟨[g], [.infoReceived, .infoTransformed], false⟩
      else
        ⟨[], [.infoReceived, .warnServerUnavailable], false⟩

/-- C9: whenever the transform lookup fails, `goal_callback` logs a
warning, sends no action goal, and returns without raising — regardless of
whether the action server is available. -/
theorem C9_transform_failure_drops_goal (serverAvailable : Bool) :
    (goal_callback none serverAvailable).sentGoals = [] ∧
    NavLog.warnTransformError ∈ (goal_callback none serverAvailable).logs ∧
    (goal_callback none serverAvailable).raised = false := by
  refine ⟨rfl, ?_, rfl⟩
  simp [goal_callback]

end NavGoalListenerNode
